import Mathlib

/-!
Shallow embedding of `ami_deregistration_F_V-1.0.py`: an AWS Lambda that
scans configured regions for AMIs tagged `Purpose=Patching, Delete=Yes`,
deregisters those older than 7 days together with their EBS snapshots,
builds an xlsx report and mails it through SES.

Modelling conventions:
  - External AWS calls (`describe_images`, `list_identities`,
    `get_identity_verification_attributes`) are fields of an `Env` record;
    the two mutating calls (`deregister_image`, `delete_snapshot`) and
    `send_raw_email` are recorded as `AwsAction`s in an explicit trace.
  - `datetime` values are integers (microseconds, the resolution of the
    `%f` directive used by the source's `strptime` format); the source
    calls `datetime.now()` several times during one invocation, modelled
    here by a single invocation instant `now` (and its `strftime` rendering
    `nowStr`), since no claim depends on the clock advancing mid-run.
  - `datetime.strptime(s, '%Y-%m-%dT%H:%M:%S.%fZ')`, a stdlib primitive,
    is modelled as an environment function `parseTimestamp` returning
    `none` exactly when the library would raise `ValueError`; an uncaught
    Python exception is the `.error` branch of the handler's `Except`.
  - The openpyxl workbook is modelled by its observable content: the list
    of appended rows plus the list of `merge_cells` ranges.
  - `ses_client.send_raw_email` raising `MessageRejected` is modelled by
    the environment flag `messageRejected` (with the exception's text in
    `rejectionText`); the send attempt itself is always in the trace.
-/

/-- One entry of an image's `BlockDeviceMappings`: the optional
`['Ebs']['SnapshotId']` field (`none` when either key is absent). -/
structure BlockDeviceMapping where
  ebsSnapshotId : Option String
deriving Repr, DecidableEq

/-- One element of `describe_images(...)['Images']`: the fields the
handler reads.  `ownerId` is optional because the source uses
`image.get('OwnerId', 'N/A')`. -/
structure Image where
  imageId : String
  ownerId : Option String
  creationDate : String
  blockDeviceMappings : List BlockDeviceMapping
deriving Repr, DecidableEq

/-- A `merge_cells(start_row=.., end_row=.., start_column=c, end_column=c)`
call recorded from the report builder (both calls in the source merge a
single column). -/
structure MergeRange where
  startRow : Nat
  endRow : Nat
  column : Nat
deriving Repr, DecidableEq

/-- The observable content of the openpyxl worksheet: title, appended rows
(header row included) and merged ranges. -/
structure Worksheet where
  title : String
  rows : List (List String)
  merges : List MergeRange
deriving Repr, DecidableEq

/-- The xlsx attachment of the outgoing mail: file name and the workbook
content it was saved from. -/
structure ExcelAttachment where
  filename : String
  sheet : Worksheet
deriving Repr, DecidableEq

/-- The MIME message assembled by `create_raw_email_with_attachment` /
`create_raw_email_no_ami_found`: headers, plain-text body, and the
optional xlsx part. -/
structure MimeMessage where
  subject : String
  msgFrom : String
  msgTo : String
  body : String
  attachment : Option ExcelAttachment
deriving Repr, DecidableEq

/-- A side effect performed against AWS during one invocation. -/
inductive AwsAction where
  | deregisterImage (region imageId : String)
  | deleteSnapshot (region snapshotId : String)
  | sendRawEmail (source : String) (destinations : List String)
      (message : MimeMessage)
deriving Repr, DecidableEq

/-- The dict returned by `lambda_handler`. -/
structure LambdaResult where
  statusCode : Nat
  body : String
deriving Repr, DecidableEq

/-- The environment of one invocation: configuration read from
`os.environ` and the responses of the external AWS services. -/
structure Env where
  /-- `os.environ['AWS_REGIONS'].split(',')`. -/
  regions : List String
  /-- `os.environ['SENDER_EMAIL']`. -/
  senderEmail : String
  /-- `os.environ['RECIPIENT_EMAILS'].split(',')`. -/
  recipientEmails : List String
  /-- Per region, `describe_images(Filters=[Purpose=Patching, Delete=Yes],
  Owners=['self'])['Images']` (the tag filtering is server-side). -/
  describeImages : String → List Image
  /-- `ses_client.list_identities(IdentityType='EmailAddress')['Identities']`. -/
  identities : List String
  /-- `get_identity_verification_attributes(...)` for one identity:
  `['VerificationAttributes'].get(identity, {}).get('VerificationStatus')`. -/
  verificationStatus : String → Option String
  /-- `datetime.strptime(s, '%Y-%m-%dT%H:%M:%S.%fZ')`, in microseconds;
  `none` models the `ValueError` raised on malformed input. -/
  parseTimestamp : String → Option Int
  /-- `datetime.now()`, in microseconds. -/
  now : Int
  /-- `datetime.now().strftime('%Y-%m-%d %H:%M:%S')`. -/
  nowStr : String
  /-- Whether `send_raw_email` raises `MessageRejected`. -/
  messageRejected : Bool
  /-- `str(e)` of the raised `MessageRejected`, when it is raised. -/
  rejectionText : String

/-- `timedelta(days=7)` in microseconds. -/
def microsPerWeek : Int := 7 * 24 * 60 * 60 * 1000000

/-- The retention check `datetime.now() - creation_date_dt > timedelta(days=7)`
(line 36 of the source). -/
def olderThanOneWeek (now creation : Int) : Bool :=
  decide (microsPerWeek < now - creation)

/-- The snapshot-id list of lines 37-41: `SnapshotId`s of the image's block
device mappings, kept only when truthy (present and non-empty). -/
def snapshotsOf (img : Image) : List String :=
  (img.blockDeviceMappings.filterMap (fun bd => bd.ebsSnapshotId)).filter
    (fun s => !s.isEmpty)

/-- One entry of `ami_details` (lines 49-55). -/
structure AmiDetail where
  account : String
  region : String
  amiId : String
  snapshots : List String
  deleteDate : String
deriving Repr, DecidableEq

/-- The `ami_details` entry appended for a selected image. -/
def imageDetail (env : Env) (region : String) (img : Image) : AmiDetail :=
  { account := img.ownerId.getD "N/A"
    region := region
    amiId := img.imageId
    snapshots := snapshotsOf img
    deleteDate := env.nowStr }

/-- The side effects of deleting one selected image (lines 44-46):
deregister it, then delete each of its snapshots in order. -/
def imageActions (region : String) (img : Image) : List AwsAction :=
  AwsAction.deregisterImage region img.imageId ::
    (snapshotsOf img).map (fun s => AwsAction.deleteSnapshot region s)

/-- The inner loop of lines 30-55 over one region's images: parse each
creation date (a malformed one raises and aborts the invocation), and for
each image older than a week perform the deletions and record the detail. -/
def scanImages (env : Env) (region : String) :
    List Image → Except String (List AwsAction × List AmiDetail)
  | [] => .ok ([], [])
  | img :: rest =>
    match env.parseTimestamp img.creationDate with
    | none =>
        .error ("time data " ++ img.creationDate ++
          " does not match format %Y-%m-%dT%H:%M:%S.%fZ")
    | some t =>
        match scanImages env region rest with
        | .error e => .error e
        | .ok (acts, details) =>
            if olderThanOneWeek env.now t then
              .ok (imageActions region img ++ acts,
                imageDetail env region img :: details)
            else
              .ok (acts, details)

/-- The outer loop of lines 18-55 over the configured regions. -/
def scanRegions (env : Env) :
    List String → Except String (List AwsAction × List AmiDetail)
  | [] => .ok ([], [])
  | r :: rs =>
    match scanImages env r (env.describeImages r) with
    | .error e => .error e
    | .ok (acts, details) =>
        match scanRegions env rs with
        | .error e => .error e
        | .ok (acts2, details2) => .ok (acts ++ acts2, details ++ details2)

/-- `get_verified_emails` (lines 143-151): the listed e-mail identities
whose verification status is `'Success'`. -/
def get_verified_emails (env : Env) : List String :=
  env.identities.filter (fun idt => env.verificationStatus idt == some "Success")

/-- `valid_recipient_emails` (line 63). -/
def validRecipientEmails (env : Env) : List String :=
  env.recipientEmails.filter (fun e => (get_verified_emails env).contains e)

/-- `unverified_emails` (line 64). -/
def unverifiedEmails (env : Env) : List String :=
  env.recipientEmails.filter (fun e => !(get_verified_emails env).contains e)

/-- `', '.join(unverified_emails) if unverified_emails else 'None'`
(lines 175 and 211). -/
def unverifiedLine (unverified : List String) : String :=
  if unverified.isEmpty then "None" else String.intercalate ", " unverified

/-- The body f-string of `create_raw_email_with_attachment` (lines 164-181). -/
def emailBodyWithReport (unverified : List String) : String :=
  "\n    Hi Team,\n\n    Good day! Hope you are doing well.\n    " ++
  "We are pleased to inform you that the manually created AMIs older " ++
  "than one week and their associated\n    snapshots have been " ++
  "successfully deleted.\n\n    The attached Excel file contains details " ++
  "of the deregistered AMIs and deleted\n    snapshots.\n\n    " ++
  "Unverified email addresses that did not receive this report:\n    " ++
  unverifiedLine unverified ++
  "\n\n    ***This is an auto generated Email. Do not reply to this " ++
  "email.***\n\n    Best regards,\n    NTT Data INC.\n    "

/-- The body f-string of `create_raw_email_no_ami_found` (lines 204-217). -/
def emailBodyNoAmiFound (unverified : List String) : String :=
  "\n    Hi Team,\n\n    Good day! Hope you are doing well.\n    " ++
  "We checked for manually created AMIs older than one week, but none " ++
  "were found.\n\n    " ++
  "Unverified email addresses that did not receive this report:\n    " ++
  unverifiedLine unverified ++
  "\n\n    ***This is an auto generated Email. Do not reply to this " ++
  "email.***\n\n    Best regards,\n    NTT Data INC.\n    "

/-- `create_raw_email_with_attachment` (lines 153-192): the "report
attached" template, with the xlsx part attached. -/
def create_raw_email_with_attachment (source_email : String)
    (dest_emails : List String) (excel : Worksheet)
    (unverified_emails : List String) : MimeMessage :=
  { subject := "AMI and Snapshot Deregistration Report"
    msgFrom := source_email
    msgTo := String.intercalate ", " dest_emails
    body := emailBodyWithReport unverified_emails
    attachment := some ⟨"ami_snapshot_report.xlsx", excel⟩ }

/-- `create_raw_email_no_ami_found` (lines 194-223): the "none found"
template, with no attachment. -/
def create_raw_email_no_ami_found (source_email : String)
    (dest_emails : List String)
    (unverified_emails : List String) : MimeMessage :=
  { subject := "No AMIs Older Than 7 Days Found"
    msgFrom := source_email
    msgTo := String.intercalate ", " dest_emails
    body := emailBodyNoAmiFound unverified_emails
    attachment := none }

/-- The header row appended at line 82. -/
def reportHeaders : List String :=
  ["Account", "Region", "AMI ID", "Snapshot", "Delete Date"]

/-- The rows appended for one detail's snapshots (lines 87-95), indexed as
by `enumerate`: AMI ID and Delete Date are written only when `i == 0`. -/
def snapshotRows (d : AmiDetail) : Nat → List String → List (List String)
  | _, [] => []
  | i, snap :: rest =>
    [d.account, d.region,
      if i = 0 then d.amiId else "",
      snap,
      if i = 0 then d.deleteDate else ""] :: snapshotRows d (i + 1) rest

/-- All data rows of one `ami_details` entry. -/
def detailRows (d : AmiDetail) : List (List String) :=
  snapshotRows d 0 d.snapshots

/-- The `merge_cells` calls for one detail (lines 98-100): with
`rowsBefore` rows already in the sheet (header included), columns 3 and 5
are merged across the detail's rows when it has more than one snapshot. -/
def detailMerges (rowsBefore : Nat) (d : AmiDetail) : List MergeRange :=
  if 1 < d.snapshots.length then
    [⟨rowsBefore + 1, rowsBefore + d.snapshots.length, 3⟩,
     ⟨rowsBefore + 1, rowsBefore + d.snapshots.length, 5⟩]
  else []

/-- The merge ranges accumulated over the details loop, with `rowsBefore`
rows already appended. -/
def sheetMerges (rowsBefore : Nat) : List AmiDetail → List MergeRange
  | [] => []
  | d :: ds =>
    detailMerges rowsBefore d ++
      sheetMerges (rowsBefore + (detailRows d).length) ds

/-- All data rows of the report (the loop of lines 85-95). -/
def sheetDataRows : List AmiDetail → List (List String)
  | [] => []
  | d :: ds => detailRows d ++ sheetDataRows ds

/-- The workbook built in lines 76-104: title, header row followed by the
data rows, and the merged ranges. -/
def buildWorkbook (details : List AmiDetail) : Worksheet :=
  { title := "AMI Snapshot Report"
    rows := reportHeaders :: sheetDataRows details
    merges := sheetMerges 1 details }

/-- `lambda_handler` (lines 8-141): scan-and-delete over all regions, then
recipient validation, then the two-branch email send.  The result is the
returned dict together with the trace of performed side effects; `.error`
is an uncaught Python exception aborting the invocation. -/
def lambda_handler (env : Env) :
    Except String (LambdaResult × List AwsAction) :=
  match scanRegions env env.regions with
  | .error e => .error e
  | .ok (scanActs, ami_details) =>
    let valid_recipient_emails := validRecipientEmails env
    let unverified_emails := unverifiedEmails env
    if valid_recipient_emails.isEmpty then
      .ok (⟨400, "No valid recipient email addresses found."⟩, scanActs)
    else
      let message :=
        if ami_details.isEmpty then
          create_raw_email_no_ami_found env.senderEmail
            valid_recipient_emails unverified_emails
        else
          create_raw_email_with_attachment env.senderEmail
            valid_recipient_emails (buildWorkbook ami_details)
            unverified_emails
      let acts := scanActs ++
        [AwsAction.sendRawEmail env.senderEmail valid_recipient_emails message]
      if env.messageRejected then
        .ok (⟨400, "Failed to send email: " ++ env.rejectionText⟩, acts)
      else
        .ok (⟨200, "Successfully processed AMIs and sent email."⟩, acts)

/-- Whether the handler selects an image for deletion: its creation date
parses and the parsed instant is more than one week before `now`. -/
def selectedForDeletion (env : Env) (img : Image) : Bool :=
  match env.parseTimestamp img.creationDate with
  | some t => olderThanOneWeek env.now t
  | none => false

/-- The deletion-phase side effects on a parse-error-free run: per region,
the actions of its selected images in order. -/
def scanTrace (env : Env) : List AwsAction :=
  env.regions.flatMap (fun r =>
    ((env.describeImages r).filter (selectedForDeletion env)).flatMap
      (imageActions r))

/-- The `ami_details` list on a parse-error-free run. -/
def scanDetails (env : Env) : List AmiDetail :=
  env.regions.flatMap (fun r =>
    ((env.describeImages r).filter (selectedForDeletion env)).map
      (imageDetail env r))

/-- Whether an action is a `send_raw_email` call. -/
def isSend : AwsAction → Bool
  | .sendRawEmail .. => true
  | _ => false

/-- The message composed in the `try` block (lines 73-131): with the
report attached when `ami_details` is non-empty, the "none found" one
otherwise. -/
def composedMessage (env : Env) (details : List AmiDetail) : MimeMessage :=
  if details.isEmpty then
    create_raw_email_no_ami_found env.senderEmail (validRecipientEmails env)
      (unverifiedEmails env)
  else
    create_raw_email_with_attachment env.senderEmail
      (validRecipientEmails env) (buildWorkbook details)
      (unverifiedEmails env)

/-- The dict returned once a send was attempted: the caught
`MessageRejected` turns into a 400, otherwise 200 (lines 132-141). -/
def sendResult (env : Env) : LambdaResult :=
  if env.messageRejected then
    ⟨400, "Failed to send email: " ++ env.rejectionText⟩
  else
    ⟨200, "Successfully processed AMIs and sent email."⟩

/-- A fixed invocation instant for the concrete test environments. -/
def sampleNow : Int := 1700000000000000

/-- Timestamp parsing for the test environments: two well-formed dates
(8 days old and current) and everything else malformed. -/
def sampleParse : String → Option Int
  | "2023-11-06T00:00:00.000000Z" => some (sampleNow - 8 * 86400 * 1000000)
  | "2023-11-14T00:00:00.000000Z" => some sampleNow
  | _ => none

/-- An 8-day-old image with three snapshots (one mapping without EBS). -/
def oldImage3 : Image :=
  { imageId := "ami-0aaa"
    ownerId := some "123456789012"
    creationDate := "2023-11-06T00:00:00.000000Z"
    blockDeviceMappings :=
      [⟨some "snap-01"⟩, ⟨none⟩, ⟨some "snap-02"⟩, ⟨some "snap-03"⟩] }

/-- An 8-day-old image whose block device mappings carry no snapshot. -/
def snaplessOldImage : Image :=
  { imageId := "ami-0bbb"
    ownerId := none
    creationDate := "2023-11-06T00:00:00.000000Z"
    blockDeviceMappings := [⟨none⟩] }

/-- An image created at the invocation instant (not selected). -/
def freshImage : Image :=
  { imageId := "ami-0ccc"
    ownerId := some "123456789012"
    creationDate := "2023-11-14T00:00:00.000000Z"
    blockDeviceMappings := [⟨some "snap-09"⟩] }

/-- An image with a malformed creation timestamp. -/
def badImage : Image :=
  { imageId := "ami-0ddd"
    ownerId := some "123456789012"
    creationDate := "not-a-timestamp"
    blockDeviceMappings := [] }

/-- Test environment: one region, one old image with three snapshots,
recipient `a@x.com` verified and `b@x.com` not, send accepted. -/
def envOk : Env :=
  { regions := ["us-east-1"]
    senderEmail := "sender@x.com"
    recipientEmails := ["a@x.com", "b@x.com"]
    describeImages := fun _ => [oldImage3]
    identities := ["a@x.com"]
    verificationStatus := fun idt =>
      if idt = "a@x.com" then some "Success" else none
    parseTimestamp := sampleParse
    now := sampleNow
    nowStr := "2023-11-14 00:00:00"
    messageRejected := false
    rejectionText := "" }

/-- Like `envOk` but with no verified identity at all. -/
def envNoVerified : Env :=
  { envOk with identities := [], verificationStatus := fun _ => none }

/-- Like `envOk` but SES rejects the send. -/
def envRejected : Env :=
  { envOk with messageRejected := true
               rejectionText := "Email address is not verified." }

/-- Like `envOk` but no image is returned for any region. -/
def envNoImages : Env :=
  { envOk with describeImages := fun _ => [] }

/-- Like `envOk` but the single selected image has no snapshots. -/
def envSnapless : Env :=
  { envOk with describeImages := fun _ => [snaplessOldImage, freshImage] }

/-- Like `envOk` but the region also returns a malformed image. -/
def envBadTimestamp : Env :=
  { envOk with describeImages := fun _ => [oldImage3, badImage] }

theorem scanImages_eq (env : Env) (r : String) (imgs : List Image)
    (h : ∀ img ∈ imgs, env.parseTimestamp img.creationDate ≠ none) :
    scanImages env r imgs =
      .ok ((imgs.filter (selectedForDeletion env)).flatMap (imageActions r),
        (imgs.filter (selectedForDeletion env)).map (imageDetail env r)) := by
  induction imgs with
  | nil => simp [scanImages]
  | cons img rest ih =>
    have h1 : env.parseTimestamp img.creationDate ≠ none := h img (by simp)
    obtain ⟨t, ht⟩ := Option.ne_none_iff_exists'.mp h1
    have h2 := ih (fun i hi => h i (by simp [hi]))
    by_cases hsel : olderThanOneWeek env.now t = true
    · simp [scanImages, ht, h2, List.filter_cons, selectedForDeletion, hsel]
    · simp only [Bool.not_eq_true] at hsel
      simp [scanImages, ht, h2, List.filter_cons, selectedForDeletion, hsel]

theorem scanRegions_eq (env : Env) (rs : List String)
    (h : ∀ r ∈ rs, ∀ img ∈ env.describeImages r,
      env.parseTimestamp img.creationDate ≠ none) :
    scanRegions env rs =
      .ok (rs.flatMap (fun r =>
            ((env.describeImages r).filter (selectedForDeletion env)).flatMap
              (imageActions r)),
        rs.flatMap (fun r =>
            ((env.describeImages r).filter (selectedForDeletion env)).map
              (imageDetail env r))) := by
  induction rs with
  | nil => simp [scanRegions]
  | cons r rest ih =>
    have h1 := scanImages_eq env r (env.describeImages r)
      (fun i hi => h r (by simp) i hi)
    have h2 := ih (fun r' hr' i hi => h r' (by simp [hr']) i hi)
    simp [scanRegions, h1, h2]

theorem scanRegions_eq_trace (env : Env)
    (h : ∀ r ∈ env.regions, ∀ img ∈ env.describeImages r,
      env.parseTimestamp img.creationDate ≠ none) :
    scanRegions env env.regions = .ok (scanTrace env, scanDetails env) :=
  scanRegions_eq env env.regions h

theorem scanImages_error_of_mem (env : Env) (r : String) (imgs : List Image)
    (img : Image) (himg : img ∈ imgs)
    (hbad : env.parseTimestamp img.creationDate = none) :
    ∃ e, scanImages env r imgs = .error e := by
  induction imgs with
  | nil => cases himg
  | cons a rest ih =>
    rcases List.mem_cons.mp himg with rfl | hmem
    · refine ⟨"time data " ++ img.creationDate ++
        " does not match format %Y-%m-%dT%H:%M:%S.%fZ", ?_⟩
      simp [scanImages, hbad]
    · cases ha : env.parseTimestamp a.creationDate with
      | none =>
        refine ⟨"time data " ++ a.creationDate ++
          " does not match format %Y-%m-%dT%H:%M:%S.%fZ", ?_⟩
        simp [scanImages, ha]
      | some t =>
        obtain ⟨e, he⟩ := ih hmem
        exact ⟨e, by simp [scanImages, ha, he]⟩

theorem scanRegions_error_of_mem (env : Env) (rs : List String)
    (r : String) (img : Image) (hr : r ∈ rs)
    (himg : img ∈ env.describeImages r)
    (hbad : env.parseTimestamp img.creationDate = none) :
    ∃ e, scanRegions env rs = .error e := by
  induction rs with
  | nil => cases hr
  | cons a rest ih =>
    rcases List.mem_cons.mp hr with rfl | hmem
    · obtain ⟨e, he⟩ := scanImages_error_of_mem env r _ img himg hbad
      exact ⟨e, by simp [scanRegions, he]⟩
    · obtain ⟨e, he⟩ := ih hmem
      cases ha : scanImages env a (env.describeImages a) with
      | error e' => exact ⟨e', by simp [scanRegions, ha]⟩
      | ok p => exact ⟨e, by simp [scanRegions, ha, he]⟩

theorem imageActions_no_send (r : String) (img : Image) :
    ∀ a ∈ imageActions r img, isSend a = false := by
  intro a ha
  rcases List.mem_cons.mp ha with rfl | hmem
  · rfl
  · obtain ⟨s, _, rfl⟩ := List.mem_map.mp hmem
    rfl

theorem scanImages_no_send (env : Env) (r : String) (imgs : List Image)
    (acts : List AwsAction) (ds : List AmiDetail)
    (h : scanImages env r imgs = .ok (acts, ds)) :
    ∀ a ∈ acts, isSend a = false := by
  induction imgs generalizing acts ds with
  | nil =>
    simp [scanImages] at h
    simp [h.1]
  | cons img rest ih =>
    cases ht : env.parseTimestamp img.creationDate with
    | none => simp [scanImages, ht] at h
    | some t =>
      cases hrest : scanImages env r rest with
      | error e => simp [scanImages, ht, hrest] at h
      | ok p =>
        obtain ⟨pa, pd⟩ := p
        by_cases hsel : olderThanOneWeek env.now t = true
        · simp [scanImages, ht, hrest, hsel] at h
          intro a ha
          rw [← h.1] at ha
          rcases List.mem_append.mp ha with h1 | h2
          · exact imageActions_no_send r img a h1
          · exact ih pa pd hrest a h2
        · simp only [Bool.not_eq_true] at hsel
          simp [scanImages, ht, hrest, hsel] at h
          intro a ha
          rw [← h.1] at ha
          exact ih pa pd hrest a ha

theorem scanRegions_no_send (env : Env) (rs : List String)
    (acts : List AwsAction) (ds : List AmiDetail)
    (h : scanRegions env rs = .ok (acts, ds)) :
    ∀ a ∈ acts, isSend a = false := by
  induction rs generalizing acts ds with
  | nil =>
    simp [scanRegions] at h
    simp [h.1]
  | cons r rest ih =>
    cases h1 : scanImages env r (env.describeImages r) with
    | error e => simp [scanRegions, h1] at h
    | ok p =>
      obtain ⟨pa, pd⟩ := p
      cases h2 : scanRegions env rest with
      | error e => simp [scanRegions, h1, h2] at h
      | ok q =>
        obtain ⟨qa, qd⟩ := q
        simp [scanRegions, h1, h2] at h
        intro a ha
        rw [← h.1] at ha
        rcases List.mem_append.mp ha with hm | hm
        · exact scanImages_no_send env r _ pa pd h1 a hm
        · exact ih qa qd h2 a hm

theorem flatMap_decomp {α β : Type} (f : α → List β) (l : List α) (x : α)
    (hx : x ∈ l) : ∃ l1 l2, l.flatMap f = l1 ++ f x ++ l2 := by
  induction l with
  | nil => cases hx
  | cons a rest ih =>
    rcases List.mem_cons.mp hx with rfl | hmem
    · exact ⟨[], rest.flatMap f, by simp⟩
    · obtain ⟨l1, l2, h⟩ := ih hmem
      exact ⟨f a ++ l1, l2, by simp [h]⟩

theorem lambda_handler_send (env : Env) (scanActs : List AwsAction)
    (details : List AmiDetail)
    (hscan : scanRegions env env.regions = .ok (scanActs, details))
    (hvalid : validRecipientEmails env ≠ []) :
    lambda_handler env = .ok (sendResult env,
      scanActs ++ [AwsAction.sendRawEmail env.senderEmail
        (validRecipientEmails env) (composedMessage env details)]) := by
  have hne : (validRecipientEmails env).isEmpty = false := by
    cases hv : (validRecipientEmails env).isEmpty
    · rfl
    · exact absurd (List.isEmpty_iff.mp hv) hvalid
  simp only [lambda_handler, hscan, hne, Bool.false_eq_true, if_false,
    composedMessage, sendResult]
  cases hd : details.isEmpty <;> cases hm : env.messageRejected <;> simp [hd, hm]

/-- C1: the retention filter selects an image for deletion iff the
difference between the current time and its parsed creation timestamp is
strictly greater than 7 days; an image created exactly 7 days + 1 second
before now is selected, one created exactly 7 days before now is not; and
the selection decision is exactly what drives the delete-and-record step
of the scan loop. -/
theorem C1_retention_filter_strict (env : Env) (img : Image) (t : Int)
    (hparse : env.parseTimestamp img.creationDate = some t) :
    (selectedForDeletion env img = true ↔ microsPerWeek < env.now - t)
    ∧ (env.now - t = microsPerWeek + 1000000 →
        selectedForDeletion env img = true)
    ∧ (env.now - t = microsPerWeek → selectedForDeletion env img = false)
    ∧ ∀ r : String, scanImages env r [img] =
        (if selectedForDeletion env img then
          Except.ok (imageActions r img, [imageDetail env r img])
        else Except.ok ([], [])) := by
  have hsel : selectedForDeletion env img = olderThanOneWeek env.now t := by
    simp [selectedForDeletion, hparse]
  refine ⟨?_, ?_, ?_, ?_⟩
  · rw [hsel]
    simp [olderThanOneWeek]
  · intro h
    rw [hsel]
    simp only [olderThanOneWeek, h, microsPerWeek, decide_eq_true_eq]
    omega
  · intro h
    rw [hsel]
    simp only [olderThanOneWeek, h, decide_eq_false_iff_not]
    omega
  · intro r
    rw [hsel]
    cases hb : olderThanOneWeek env.now t <;>
      simp [scanImages, hparse, hb]

/-- Witness for C1: in `envOk` the 8-day-old `oldImage3` is selected and
its one-image scan deregisters it and records its detail. -/
theorem C1_retention_filter_strict_witness :
    selectedForDeletion envOk oldImage3 = true
    ∧ scanImages envOk "us-east-1" [oldImage3] =
        (if selectedForDeletion envOk oldImage3 then
          Except.ok (imageActions "us-east-1" oldImage3,
            [imageDetail envOk "us-east-1" oldImage3])
        else Except.ok ([], [])) :=
  ⟨(C1_retention_filter_strict envOk oldImage3
      (sampleNow - 8 * 86400 * 1000000) rfl).1.mpr (by decide),
   (C1_retention_filter_strict envOk oldImage3
      (sampleNow - 8 * 86400 * 1000000) rfl).2.2.2 "us-east-1"⟩

/-- C2: when none of the configured recipients is verified, the handler
returns statusCode 400 with a descriptive body and its trace contains no
`send_raw_email` call. -/
theorem C2_no_valid_recipients_400 (env : Env)
    (scanActs : List AwsAction) (details : List AmiDetail)
    (hscan : scanRegions env env.regions = .ok (scanActs, details))
    (hnone : validRecipientEmails env = []) :
    lambda_handler env =
      .ok (⟨400, "No valid recipient email addresses found."⟩, scanActs)
    ∧ ∀ a ∈ scanActs, isSend a = false := by
  constructor
  · simp [lambda_handler, hscan, hnone]
  · exact scanRegions_no_send env env.regions scanActs details hscan

/-- Witness for C2: `envNoVerified` has no verified identity; the handler
returns 400 and the trace holds only the deletion actions, none a send. -/
theorem C2_no_valid_recipients_400_witness :
    lambda_handler envNoVerified =
      .ok (⟨400, "No valid recipient email addresses found."⟩,
        [AwsAction.deregisterImage "us-east-1" "ami-0aaa",
         AwsAction.deleteSnapshot "us-east-1" "snap-01",
         AwsAction.deleteSnapshot "us-east-1" "snap-02",
         AwsAction.deleteSnapshot "us-east-1" "snap-03"])
    ∧ isSend (AwsAction.deregisterImage "us-east-1" "ami-0aaa") = false :=
  ⟨(C2_no_valid_recipients_400 envNoVerified
      [AwsAction.deregisterImage "us-east-1" "ami-0aaa",
       AwsAction.deleteSnapshot "us-east-1" "snap-01",
       AwsAction.deleteSnapshot "us-east-1" "snap-02",
       AwsAction.deleteSnapshot "us-east-1" "snap-03"]
      [imageDetail envNoVerified "us-east-1" oldImage3]
      (by rfl) (by rfl)).1,
   (C2_no_valid_recipients_400 envNoVerified
      [AwsAction.deregisterImage "us-east-1" "ami-0aaa",
       AwsAction.deleteSnapshot "us-east-1" "snap-01",
       AwsAction.deleteSnapshot "us-east-1" "snap-02",
       AwsAction.deleteSnapshot "us-east-1" "snap-03"]
      [imageDetail envNoVerified "us-east-1" oldImage3]
      (by rfl) (by rfl)).2
     (AwsAction.deregisterImage "us-east-1" "ami-0aaa") (by simp)⟩

/-- C8: a fetched image whose creation timestamp does not parse in the
expected format makes the whole invocation fail with an uncaught error:
no result dict (partial or otherwise) is returned. -/
theorem C8_malformed_timestamp_aborts (env : Env) (r : String) (img : Image)
    (hr : r ∈ env.regions) (himg : img ∈ env.describeImages r)
    (hbad : env.parseTimestamp img.creationDate = none) :
    ∃ e, lambda_handler env = .error e := by
  obtain ⟨e, he⟩ := scanRegions_error_of_mem env env.regions r img hr himg hbad
  exact ⟨e, by simp [lambda_handler, he]⟩

/-- Witness for C8: `envBadTimestamp` returns one well-formed and one
malformed image; the invocation aborts with an error. -/
theorem C8_malformed_timestamp_aborts_witness :
    envBadTimestamp.parseTimestamp badImage.creationDate = none
    ∧ ∃ e, lambda_handler envBadTimestamp = .error e :=
  ⟨rfl, C8_malformed_timestamp_aborts envBadTimestamp "us-east-1" badImage
    (by simp [envBadTimestamp, envOk])
    (by simp [envBadTimestamp, envOk]) rfl⟩

theorem snapshotRows_length (d : AmiDetail) :
    ∀ (snaps : List String) (i : Nat),
      (snapshotRows d i snaps).length = snaps.length := by
  intro snaps
  induction snaps with
  | nil => intro i; rfl
  | cons s rest ih => intro i; simp [snapshotRows, ih]

theorem snapshotRows_continuation (d : AmiDetail) :
    ∀ (snaps : List String) (i : Nat), i ≠ 0 →
      ∀ row ∈ snapshotRows d i snaps,
        ∃ s ∈ snaps, row = [d.account, d.region, "", s, ""] := by
  intro snaps
  induction snaps with
  | nil =>
    intro i _ row hrow
    simp [snapshotRows] at hrow
  | cons s rest ih =>
    intro i hi row hrow
    rw [snapshotRows] at hrow
    rcases List.mem_cons.mp hrow with rfl | hmem
    · exact ⟨s, by simp, by simp [hi]⟩
    · obtain ⟨s', hs', hrow'⟩ := ih (i + 1) (by omega) row hmem
      exact ⟨s', by simp [hs'], hrow'⟩

/-- C4: once a send is attempted, a `MessageRejected` from SES is caught
and surfaced as statusCode 400 with descriptive text, a successful send
returns statusCode 200, and in either case the trace holds exactly one
send attempt (no retry). -/
theorem C4_message_rejected_or_sent (env : Env)
    (scanActs : List AwsAction) (details : List AmiDetail)
    (hscan : scanRegions env env.regions = .ok (scanActs, details))
    (hvalid : validRecipientEmails env ≠ []) :
    lambda_handler env =
      .ok ((if env.messageRejected then
          (⟨400, "Failed to send email: " ++ env.rejectionText⟩ : LambdaResult)
        else ⟨200, "Successfully processed AMIs and sent email."⟩),
        scanActs ++ [AwsAction.sendRawEmail env.senderEmail
          (validRecipientEmails env) (composedMessage env details)])
    ∧ (scanActs ++ [AwsAction.sendRawEmail env.senderEmail
        (validRecipientEmails env) (composedMessage env details)]).countP
        isSend = 1 := by
  have h := lambda_handler_send env scanActs details hscan hvalid
  constructor
  · simpa [sendResult] using h
  · have h0 : scanActs.countP isSend = 0 := by
      rw [List.countP_eq_zero]
      intro a ha
      simp [scanRegions_no_send env env.regions scanActs details hscan a ha]
    simp [List.countP_append, h0, List.countP_cons, isSend]

/-- Witness for C4: in `envRejected` SES rejects the send; the handler
returns 400 with the exception text after exactly one send attempt. -/
theorem C4_message_rejected_or_sent_witness :
    validRecipientEmails envRejected ≠ []
    ∧ (lambda_handler envRejected =
        .ok ((if envRejected.messageRejected then
            (⟨400, "Failed to send email: " ++ envRejected.rejectionText⟩ :
              LambdaResult)
          else ⟨200, "Successfully processed AMIs and sent email."⟩),
          scanTrace envRejected ++ [AwsAction.sendRawEmail
            envRejected.senderEmail (validRecipientEmails envRejected)
            (composedMessage envRejected (scanDetails envRejected))])
      ∧ (scanTrace envRejected ++ [AwsAction.sendRawEmail
          envRejected.senderEmail (validRecipientEmails envRejected)
          (composedMessage envRejected (scanDetails envRejected))]).countP
          isSend = 1) :=
  ⟨by decide,
   C4_message_rejected_or_sent envRejected (scanTrace envRejected)
     (scanDetails envRejected) (by rfl) (by decide)⟩

/-- C5: each deleted image contributes one report row per snapshot, with
the AMI ID and Delete Date cells populated only on the first of those rows
and blank on continuation rows; with three snapshots that is exactly three
rows, and the workbook merges columns 3 and 5 across them. -/
theorem C5_report_rows_merged (acct reg ami date s1 s2 s3 : String) :
    detailRows ⟨acct, reg, ami, [s1, s2, s3], date⟩ =
      [[acct, reg, ami, s1, date],
       [acct, reg, "", s2, ""],
       [acct, reg, "", s3, ""]]
    ∧ (∀ d : AmiDetail, (detailRows d).length = d.snapshots.length)
    ∧ (∀ (d : AmiDetail) (i : Nat) (snaps : List String), i ≠ 0 →
        ∀ row ∈ snapshotRows d i snaps,
          ∃ s ∈ snaps, row = [d.account, d.region, "", s, ""])
    ∧ buildWorkbook [⟨acct, reg, ami, [s1, s2, s3], date⟩] =
        ⟨"AMI Snapshot Report",
         [reportHeaders,
          [acct, reg, ami, s1, date],
          [acct, reg, "", s2, ""],
          [acct, reg, "", s3, ""]],
         [⟨2, 4, 3⟩, ⟨2, 4, 5⟩]⟩ := by
  refine ⟨rfl, fun d => snapshotRows_length d d.snapshots 0,
    fun d i snaps hi => snapshotRows_continuation d snaps i hi, ?_⟩
  rfl

/-- C7: on a parse-error-free run, the deletion trace contains, for every
selected image, its deregistration immediately followed by the deletions
of all its snapshots in mapping order: a snapshot is never deleted before
its image is deregistered. -/
theorem C7_deregister_then_delete_snapshots (env : Env) (r : String)
    (img : Image)
    (hparse : ∀ r' ∈ env.regions, ∀ i ∈ env.describeImages r',
      env.parseTimestamp i.creationDate ≠ none)
    (hr : r ∈ env.regions) (himg : img ∈ env.describeImages r)
    (hsel : selectedForDeletion env img = true) :
    ∃ l1 l2,
      scanRegions env env.regions =
        .ok (l1 ++ (AwsAction.deregisterImage r img.imageId ::
            (snapshotsOf img).map (fun s => AwsAction.deleteSnapshot r s))
          ++ l2, scanDetails env) := by
  have h := scanRegions_eq_trace env hparse
  obtain ⟨a1, a2, hdec⟩ := flatMap_decomp
    (fun r =>
      ((env.describeImages r).filter (selectedForDeletion env)).flatMap
        (imageActions r))
    env.regions r hr
  obtain ⟨b1, b2, hdec2⟩ := flatMap_decomp (imageActions r)
    ((env.describeImages r).filter (selectedForDeletion env)) img
    (List.mem_filter.mpr ⟨himg, hsel⟩)
  refine ⟨a1 ++ b1, b2 ++ a2, ?_⟩
  rw [h]
  have htr : scanTrace env =
      (a1 ++ b1) ++ imageActions r img ++ (b2 ++ a2) := by
    rw [scanTrace, hdec, hdec2]
    simp [List.append_assoc]
  rw [htr]
  rfl

/-- Witness for C7: in `envOk` the selected `oldImage3` is deregistered
and then its three snapshots deleted, as one contiguous trace segment. -/
theorem C7_deregister_then_delete_snapshots_witness :
    selectedForDeletion envOk oldImage3 = true
    ∧ ∃ l1 l2,
        scanRegions envOk envOk.regions =
          .ok (l1 ++ (AwsAction.deregisterImage "us-east-1" "ami-0aaa" ::
              (snapshotsOf oldImage3).map
                (fun s => AwsAction.deleteSnapshot "us-east-1" s)) ++ l2,
            scanDetails envOk) :=
  ⟨by decide,
   C7_deregister_then_delete_snapshots envOk "us-east-1" oldImage3
     (by decide) (by decide) (by decide) (by decide)⟩

/-- C10: all deregistrations and snapshot deletions happen before
recipient validation: with no valid recipient the handler returns the 400
result together with the full deletion trace — the deletions are not
rolled back. -/
theorem C10_deletions_before_validation (env : Env)
    (hparse : ∀ r ∈ env.regions, ∀ i ∈ env.describeImages r,
      env.parseTimestamp i.creationDate ≠ none)
    (hnone : validRecipientEmails env = []) :
    lambda_handler env =
      .ok (⟨400, "No valid recipient email addresses found."⟩, scanTrace env)
    ∧ ∀ r ∈ env.regions, ∀ img ∈ env.describeImages r,
        selectedForDeletion env img = true →
          AwsAction.deregisterImage r img.imageId ∈ scanTrace env
          ∧ ∀ s ∈ snapshotsOf img,
              AwsAction.deleteSnapshot r s ∈ scanTrace env := by
  have h := scanRegions_eq_trace env hparse
  constructor
  · simp [lambda_handler, h, hnone]
  · intro r hr img himg hsel
    have hmem : img ∈ (env.describeImages r).filter (selectedForDeletion env) :=
      List.mem_filter.mpr ⟨himg, hsel⟩
    constructor
    · exact List.mem_flatMap.mpr ⟨r, hr, List.mem_flatMap.mpr
        ⟨img, hmem, by simp [imageActions]⟩⟩
    · intro s hs
      refine List.mem_flatMap.mpr ⟨r, hr, List.mem_flatMap.mpr
        ⟨img, hmem, ?_⟩⟩
      simp only [imageActions, List.mem_cons]
      exact Or.inr (List.mem_map.mpr ⟨s, hs, rfl⟩)

/-- Witness for C10: in `envNoVerified` the handler returns 400 yet the
trace shows the image deregistered and a snapshot deleted. -/
theorem C10_deletions_before_validation_witness :
    lambda_handler envNoVerified =
      .ok (⟨400, "No valid recipient email addresses found."⟩,
        scanTrace envNoVerified)
    ∧ AwsAction.deregisterImage "us-east-1" "ami-0aaa" ∈
        scanTrace envNoVerified
    ∧ AwsAction.deleteSnapshot "us-east-1" "snap-01" ∈
        scanTrace envNoVerified :=
  ⟨(C10_deletions_before_validation envNoVerified (by decide) rfl).1,
   ((C10_deletions_before_validation envNoVerified (by decide) rfl).2
      "us-east-1" (by decide) oldImage3 (by decide) (by decide)).1,
   ((C10_deletions_before_validation envNoVerified (by decide) rfl).2
      "us-east-1" (by decide) oldImage3 (by decide) (by decide)).2
     "snap-01" (by decide)⟩

theorem sheetDataRows_nil_of_snapshotless (details : List AmiDetail)
    (h : ∀ d ∈ details, d.snapshots = []) : sheetDataRows details = [] := by
  induction details with
  | nil => rfl
  | cons d ds ih =>
    have hd : d.snapshots = [] := h d (by simp)
    have : detailRows d = [] := by
      rw [detailRows, hd]
      rfl
    simp [sheetDataRows, this, ih (fun x hx => h x (by simp [hx]))]

theorem sheetMerges_nil_of_snapshotless (details : List AmiDetail)
    (h : ∀ d ∈ details, d.snapshots = []) :
    ∀ k, sheetMerges k details = [] := by
  induction details with
  | nil => intro k; rfl
  | cons d ds ih =>
    intro k
    have hd : d.snapshots = [] := h d (by simp)
    simp [sheetMerges, detailMerges, hd, ih (fun x hx => h x (by simp [hx]))]

/-- C3: a recipient is valid iff it is configured, listed as an identity
and has verification status `Success`; the sent message's body embeds, as
the unverified list, exactly the configured recipients outside the
verified set — under either template. -/
theorem C3_recipient_partition_and_body (env : Env)
    (scanActs : List AwsAction) (details : List AmiDetail)
    (hscan : scanRegions env env.regions = .ok (scanActs, details))
    (hvalid : validRecipientEmails env ≠ []) :
    (∀ e, e ∈ validRecipientEmails env ↔
        e ∈ env.recipientEmails ∧ e ∈ env.identities ∧
          env.verificationStatus e = some "Success")
    ∧ lambda_handler env = .ok (sendResult env,
        scanActs ++ [AwsAction.sendRawEmail env.senderEmail
          (validRecipientEmails env) (composedMessage env details)])
    ∧ (composedMessage env details).body =
        (if details.isEmpty then emailBodyNoAmiFound
         else emailBodyWithReport)
          (env.recipientEmails.filter
            (fun e => !(get_verified_emails env).contains e)) := by
  refine ⟨?_, lambda_handler_send env scanActs details hscan hvalid, ?_⟩
  · intro e
    simp [validRecipientEmails, get_verified_emails, List.mem_filter,
      and_assoc]
  · cases hd : details.isEmpty with
    | true =>
      simp [composedMessage, hd, create_raw_email_no_ami_found,
        unverifiedEmails]
    | false =>
      simp [composedMessage, hd, create_raw_email_with_attachment,
        unverifiedEmails]

/-- Witness for C3: in `envOk` (`a@x.com` verified, `b@x.com` not) the
valid set is `[a@x.com]` and the report body lists `b@x.com` as
unverified. -/
theorem C3_recipient_partition_and_body_witness :
    validRecipientEmails envOk = ["a@x.com"]
    ∧ ("b@x.com" ∈ validRecipientEmails envOk ↔
        "b@x.com" ∈ envOk.recipientEmails ∧ "b@x.com" ∈ envOk.identities ∧
          envOk.verificationStatus "b@x.com" = some "Success")
    ∧ (composedMessage envOk (scanDetails envOk)).body =
        (if (scanDetails envOk).isEmpty then emailBodyNoAmiFound
         else emailBodyWithReport)
          (envOk.recipientEmails.filter
            (fun e => !(get_verified_emails envOk).contains e))
    ∧ envOk.recipientEmails.filter
        (fun e => !(get_verified_emails envOk).contains e) = ["b@x.com"] :=
  ⟨by decide,
   (C3_recipient_partition_and_body envOk (scanTrace envOk)
      (scanDetails envOk) (by rfl) (by decide)).1 "b@x.com",
   (C3_recipient_partition_and_body envOk (scanTrace envOk)
      (scanDetails envOk) (by rfl) (by decide)).2.2,
   by decide⟩

/-- C6: when a send happens, the trace holds exactly one send action, and
its message is exactly one of the two mutually exclusive templates: the
"none found" one without attachment when no image was deleted, the
"report attached" one with the workbook attached otherwise. -/
theorem C6_exactly_one_template (env : Env)
    (scanActs : List AwsAction) (details : List AmiDetail)
    (hscan : scanRegions env env.regions = .ok (scanActs, details))
    (hvalid : validRecipientEmails env ≠ []) :
    lambda_handler env = .ok (sendResult env,
      scanActs ++ [AwsAction.sendRawEmail env.senderEmail
        (validRecipientEmails env) (composedMessage env details)])
    ∧ (scanActs ++ [AwsAction.sendRawEmail env.senderEmail
        (validRecipientEmails env) (composedMessage env details)]).filter
        isSend =
      [AwsAction.sendRawEmail env.senderEmail (validRecipientEmails env)
        (composedMessage env details)]
    ∧ ((details = []
        ∧ composedMessage env details =
            create_raw_email_no_ami_found env.senderEmail
              (validRecipientEmails env) (unverifiedEmails env)
        ∧ (composedMessage env details).attachment = none)
      ∨ (details ≠ []
        ∧ composedMessage env details =
            create_raw_email_with_attachment env.senderEmail
              (validRecipientEmails env) (buildWorkbook details)
              (unverifiedEmails env)
        ∧ (composedMessage env details).attachment =
            some ⟨"ami_snapshot_report.xlsx", buildWorkbook details⟩)) := by
  have hns := scanRegions_no_send env env.regions scanActs details hscan
  refine ⟨lambda_handler_send env scanActs details hscan hvalid, ?_, ?_⟩
  · rw [List.filter_append]
    have h0 : scanActs.filter isSend = [] := by
      rw [List.filter_eq_nil_iff]
      intro a ha
      simp [hns a ha]
    rw [h0]
    rfl
  · cases details with
    | nil =>
      exact Or.inl ⟨rfl, by simp [composedMessage],
        by simp [composedMessage, create_raw_email_no_ami_found]⟩
    | cons d ds =>
      refine Or.inr ⟨by simp, by simp [composedMessage], ?_⟩
      simp [composedMessage, create_raw_email_with_attachment]

/-- Witness for C6: `envNoImages` deletes nothing, so the "none found"
template is sent with no attachment after exactly one send attempt. -/
theorem C6_exactly_one_template_witness :
    lambda_handler envNoImages = .ok (sendResult envNoImages,
      [] ++ [AwsAction.sendRawEmail envNoImages.senderEmail
        (validRecipientEmails envNoImages) (composedMessage envNoImages [])])
    ∧ ([] ++ [AwsAction.sendRawEmail envNoImages.senderEmail
        (validRecipientEmails envNoImages)
        (composedMessage envNoImages [])]).filter isSend =
      [AwsAction.sendRawEmail envNoImages.senderEmail
        (validRecipientEmails envNoImages) (composedMessage envNoImages [])]
    ∧ (([] : List AmiDetail) = []
        ∧ composedMessage envNoImages [] =
            create_raw_email_no_ami_found envNoImages.senderEmail
              (validRecipientEmails envNoImages)
              (unverifiedEmails envNoImages)
        ∧ (composedMessage envNoImages []).attachment = none
      ∨ (([] : List AmiDetail) ≠ []
        ∧ composedMessage envNoImages [] =
            create_raw_email_with_attachment envNoImages.senderEmail
              (validRecipientEmails envNoImages) (buildWorkbook [])
              (unverifiedEmails envNoImages)
        ∧ (composedMessage envNoImages []).attachment =
            some ⟨"ami_snapshot_report.xlsx", buildWorkbook []⟩)) :=
  C6_exactly_one_template envNoImages [] [] (by rfl) (by decide)

/-- C9: a selected image without snapshots is still deregistered and
recorded, yields no report row, and when every recorded detail is
snapshotless the report-attached branch is taken with a sheet holding
only the header row. -/
theorem C9_snapshotless_image_header_only (env : Env) (r : String)
    (img : Image)
    (hparse : ∀ r' ∈ env.regions, ∀ i ∈ env.describeImages r',
      env.parseTimestamp i.creationDate ≠ none)
    (hr : r ∈ env.regions) (himg : img ∈ env.describeImages r)
    (hsel : selectedForDeletion env img = true)
    (hsnap : snapshotsOf img = []) :
    scanRegions env env.regions = .ok (scanTrace env, scanDetails env)
    ∧ AwsAction.deregisterImage r img.imageId ∈ scanTrace env
    ∧ imageDetail env r img ∈ scanDetails env
    ∧ (imageDetail env r img).snapshots = []
    ∧ detailRows (imageDetail env r img) = []
    ∧ (validRecipientEmails env ≠ [] →
        (∀ d ∈ scanDetails env, d.snapshots = []) →
        lambda_handler env = .ok (sendResult env, scanTrace env ++
          [AwsAction.sendRawEmail env.senderEmail
            (validRecipientEmails env)
            (create_raw_email_with_attachment env.senderEmail
              (validRecipientEmails env)
              ⟨"AMI Snapshot Report", [reportHeaders], []⟩
              (unverifiedEmails env))])) := by
  have hmem : img ∈ (env.describeImages r).filter (selectedForDeletion env) :=
    List.mem_filter.mpr ⟨himg, hsel⟩
  have hmemd : imageDetail env r img ∈ scanDetails env :=
    List.mem_flatMap.mpr ⟨r, hr, List.mem_map.mpr ⟨img, hmem, rfl⟩⟩
  refine ⟨scanRegions_eq_trace env hparse,
    List.mem_flatMap.mpr ⟨r, hr, List.mem_flatMap.mpr
      ⟨img, hmem, by simp [imageActions]⟩⟩,
    hmemd, by simp [imageDetail, hsnap],
    by simp [detailRows, imageDetail, hsnap, snapshotRows], ?_⟩
  intro hvalid hall
  have hne : scanDetails env ≠ [] := by
    intro h0
    rw [h0] at hmemd
    cases hmemd
  have hie : (scanDetails env).isEmpty = false := by
    cases h : (scanDetails env).isEmpty
    · rfl
    · exact absurd (List.isEmpty_iff.mp h) hne
  have hbw : buildWorkbook (scanDetails env) =
      ⟨"AMI Snapshot Report", [reportHeaders], []⟩ := by
    rw [buildWorkbook, sheetDataRows_nil_of_snapshotless _ hall,
      sheetMerges_nil_of_snapshotless _ hall 1]
  have h := lambda_handler_send env (scanTrace env) (scanDetails env)
    (scanRegions_eq_trace env hparse) hvalid
  rw [show composedMessage env (scanDetails env) =
      create_raw_email_with_attachment env.senderEmail
        (validRecipientEmails env)
        ⟨"AMI Snapshot Report", [reportHeaders], []⟩
        (unverifiedEmails env) from by
    simp [composedMessage, hie, hbw]] at h
  exact h

/-- Witness for C9: in `envSnapless` the snapshotless image is
deregistered, recorded, and the mail goes out with a header-only sheet. -/
theorem C9_snapshotless_image_header_only_witness :
    snapshotsOf snaplessOldImage = []
    ∧ AwsAction.deregisterImage "us-east-1" "ami-0bbb" ∈
        scanTrace envSnapless
    ∧ detailRows (imageDetail envSnapless "us-east-1" snaplessOldImage) = []
    ∧ lambda_handler envSnapless = .ok (sendResult envSnapless,
        scanTrace envSnapless ++
          [AwsAction.sendRawEmail envSnapless.senderEmail
            (validRecipientEmails envSnapless)
            (create_raw_email_with_attachment envSnapless.senderEmail
              (validRecipientEmails envSnapless)
              ⟨"AMI Snapshot Report", [reportHeaders], []⟩
              (unverifiedEmails envSnapless))]) :=
  ⟨rfl,
   (C9_snapshotless_image_header_only envSnapless "us-east-1"
      snaplessOldImage (by decide) (by decide) (by decide) (by decide)
      rfl).2.1,
   (C9_snapshotless_image_header_only envSnapless "us-east-1"
      snaplessOldImage (by decide) (by decide) (by decide) (by decide)
      rfl).2.2.2.2.1,
   (C9_snapshotless_image_header_only envSnapless "us-east-1"
      snaplessOldImage (by decide) (by decide) (by decide) (by decide)
      rfl).2.2.2.2.2 (by decide) (by decide)⟩
